import Mathlib

set_option maxRecDepth 1000000

/-!
Verification of the `CodeStandardizerApp` script (`streamlit_using_grok_api.py`).

The script is a thin Streamlit workflow: prompt assembly (`call_llm`), output
sanitizing (`clean_code_block`) and a test runner (`run_tests`).  We give a
shallow embedding of these three functions.  Python attribute errors matter
here, because `self.supported_languages` is a `list` and the code calls the
string method `.lower()` on it; we therefore model the relevant Python values
dynamically (`PyObj`) and make fallible code return `Except PyExc`.
-/

/-- Python exceptions that the embedded code can raise. -/
inductive PyExc
  | attributeError (msg : String)
  | indexError (msg : String)
deriving DecidableEq, Repr

/-- Python values relevant to this program: a `str` or a `list` of strings
(the type of `self.supported_languages`). -/
inductive PyObj
  | pyStr (s : String)
  | pyList (xs : List String)
deriving DecidableEq, Repr

/-- The characters Python's `str.strip()` removes by default. -/
def pyIsSpace (c : Char) : Bool :=
  c = ' ' || c = '\t' || c = '\n' || c = '\r' || c = '\x0b' || c = '\x0c'

/-- Python `str.lower()` (ASCII case folding, enough for this program). -/
def pyLower (s : String) : String :=
  String.mk (s.data.map Char.toLower)

/-- Python `str.strip()` with no argument: drop leading and trailing whitespace. -/
def pyStrip (s : String) : String :=
  String.mk (((s.data.dropWhile pyIsSpace).reverse.dropWhile pyIsSpace).reverse)

/-- Python `str.strip(chars)`: drop leading and trailing characters drawn from `chars`. -/
def pyStripChars (s : String) (chars : String) : String :=
  String.mk (((s.data.dropWhile (chars.data.contains ·)).reverse.dropWhile
    (chars.data.contains ·)).reverse)

/-- Worker for `pySplitlines`; `acc` holds the current line reversed. -/
def pySplitlinesGo : List Char → List Char → List String
  | [], acc => if acc.isEmpty then [] else [String.mk acc.reverse]
  | '\r' :: '\n' :: rest, acc => String.mk acc.reverse :: pySplitlinesGo rest []
  | '\n' :: rest, acc => String.mk acc.reverse :: pySplitlinesGo rest []
  | '\r' :: rest, acc => String.mk acc.reverse :: pySplitlinesGo rest []
  | c :: rest, acc => pySplitlinesGo rest (c :: acc)

/-- Python `str.splitlines()` restricted to the line breaks `\n`, `\r` and `\r\n`
(a trailing break yields no empty final element, exactly as in Python). -/
def pySplitlines (s : String) : List String :=
  pySplitlinesGo s.data []

/-- Python `str.startswith(p)`. -/
def pyStartswith (s p : String) : Bool :=
  p.data.isPrefixOf s.data

/-- Python `str(x)`: a string renders as itself, a list as its repr. -/
def PyObj.str : PyObj → String
  | .pyStr s => s
  | .pyList xs =>
      "[" ++ String.intercalate ", " (xs.map (fun x => "\x27" ++ x ++ "\x27")) ++ "]"

/-- The Python method call `x.lower()`: defined on `str`, an `AttributeError`
on `list` — exactly what CPython raises. -/
def PyObj.lower : PyObj → Except PyExc PyObj
  | .pyStr s => .ok (.pyStr (pyLower s))
  | .pyList _ => .error (.attributeError "\x27list\x27 object has no attribute \x27lower\x27")

/-- `self.supported_languages` as set in `CodeStandardizerApp.__init__` (line 12):
a Python *list* of language names. -/
def supported_languages : PyObj :=
  .pyList ["python", "javascript", "java", "C", "C++"]

/-- The `AttributeError` raised by `supported_languages.lower()`. -/
def listLowerErr : PyExc :=
  .attributeError "\x27list\x27 object has no attribute \x27lower\x27"

/-- `clean_code_block` (lines 18–27).  Embeds the body statement by statement:
the fence test, `code.strip().splitlines()`, the comparison
`lines[0].strip("\x60").lower() == self.supported_languages.lower()` (whose
right-hand side calls `.lower()` on a list), the optional drop of the first
and last line, and the final `"\n".join(lines)`. -/
def clean_code_block (code : String) : Except PyExc String :=
  if pyStartswith code "```" then
    match (pySplitlines (pyStrip code)).head? with
    | none => .error (.indexError "list index out of range")
    | some line0 =>
      let lhs := pyLower (pyStripChars line0 "`")
      match supported_languages.lower with
      | .error e => .error e
      | .ok rhs =>
        let lines := pySplitlines (pyStrip code)
        let lines := if PyObj.pyStr lhs = rhs then lines.drop 1 else lines
        let lines :=
          match lines.getLast? with
          | some last => if pyStrip last = "```" then lines.dropLast else lines
          | none => lines
        .ok (String.intercalate "\n" lines)
  else
    .ok code

/-- A Python optional-string argument used under truthiness: `if x:` is false
both for `None` and for the empty string. -/
def optPart (o : Option String) (f : String → String) : String :=
  match o with
  | none => ""
  | some s => if s = "" then "" else f s

/-- The fixed triple-quoted instruction template appended at lines 40–48, with
`{self.supported_languages}` rendered the way Python's f-string renders the
list (its repr), including the source's indentation and trailing spaces. -/
def promptTemplate : String :=
  "\n                            You are a professional software engineer. You will be provided with code in [\x27python\x27, \x27javascript\x27, \x27java\x27, \x27C\x27, \x27C++\x27] and optionally coding standards. \n                            Your task is to generate standardized code and/or test cases.\n\n                            Instructions:\n                            1. Return only [\x27python\x27, \x27javascript\x27, \x27java\x27, \x27C\x27, \x27C++\x27] code. No markdown, no extra text.\n                            2. If coding standards are provided, follow them strictly.\n                            3. Ensure the code can run without modification.\n                            "

/-- The `full_user_prompt` assembled by `call_llm` (lines 31–48): the optional
coding-standards block, the optional user prompt, the user-code block (whose
header interpolates `{self.supported_languages}`, i.e. the list repr), and the
fixed template. -/
def full_user_prompt (coding_doc user_prompt : Option String) (user_code : String) : String :=
  optPart coding_doc (fun d => "### Coding standards:\n" ++ d ++ "\n\n")
  ++ optPart user_prompt (fun p => p ++ "\n\n")
  ++ ("### User code in " ++ supported_languages.str ++ ":\n" ++ user_code ++ "\n\n")
  ++ promptTemplate

/-- One choice of a chat-completion response (`response.choices[i]`);
`message_content` is `choices[i].message.content`. -/
structure Choice where
  message_content : String

/-- A chat-completion response: a list of choices. -/
structure ChatResponse where
  choices : List Choice

/-- The observable outcome of `call_llm`: the returned string, the messages
shown via `st.error`, and how many completion requests were issued. -/
structure LLMCall where
  result : String
  ui_errors : List String
  attempts : Nat
deriving DecidableEq

/-- `call_llm` (lines 30–62), with the completion endpoint abstracted as a
function `api` from the prompt to either an exception message or a response.
The body assembles `full_user_prompt`, issues exactly one request inside the
`try`, and on any exception (including the `IndexError` that an empty
`choices` list would cause at `response.choices[0]`) reports it with
`st.error` and returns `""`; on success it returns
`response.choices[0].message.content`. -/
def call_llm (api : String → Except String ChatResponse)
    (system_prompt user_code : String)
    (coding_doc user_prompt : Option String) : LLMCall :=
  match api (full_user_prompt coding_doc user_prompt user_code) with
  | .ok resp =>
      match resp.choices.head? with
      | some c => ⟨c.message_content, [], 1⟩
      | none => ⟨"", ["❌ LLM API Error: list index out of range"], 1⟩
  | .error e => ⟨"", ["❌ LLM API Error: " ++ e], 1⟩

/-- Captured output of a child process started by `subprocess.run`. -/
structure ProcResult where
  stdout : String
  stderr : String
deriving DecidableEq

/-- What `run_tests` did to the world inside its temporary directory: the files
it wrote (path and content, in order) and the child processes it spawned. -/
structure FSTrace where
  files : List (String × String)
  spawned : List (List String)
deriving DecidableEq

/-- The fixed import line the JavaScript branch writes before the tests
(line 86): `const { fibonacci } = require(...)` followed by a blank line. -/
def jsImportLine : String :=
  "const \x7b fibonacci \x7d = require(\x27./main\x27);\n\n"

/-- `run_tests` (lines 65–92), with `subprocess.run` abstracted as `run` and
the `tempfile.TemporaryDirectory` path as `temp_dir`.  The body first
evaluates `self.supported_languages.lower()` (line 67) — `.lower()` on a
list — and only then would dispatch to the python / javascript / unsupported
branches, which are embedded verbatim after the match. -/
def run_tests (run : List String → ProcResult) (temp_dir code_str test_str : String) :
    Except PyExc String × FSTrace :=
  match supported_languages.lower with
  | .error e => (.error e, ⟨[], []⟩)
  | .ok lang =>
    if lang = .pyStr "python" then
      let code_path := temp_dir ++ "/main.py"
      let test_path := temp_dir ++ "/test_main.py"
      let result := run ["python", test_path]
      (.ok (result.stdout ++ result.stderr),
       ⟨[(code_path, code_str), (test_path, test_str)], [["python", test_path]]⟩)
    else if lang = .pyStr "javascript" then
      let code_path := temp_dir ++ "/main.js"
      let test_path := temp_dir ++ "/test_main.js"
      let result := run ["node", test_path]
      (.ok (result.stdout ++ result.stderr),
       ⟨[(code_path, code_str), (test_path, jsImportLine ++ test_str)], [["node", test_path]]⟩)
    else
      (.ok ("❌ Language \x27" ++ supported_languages.str ++ "\x27 is not supported yet."),
       ⟨[], []⟩)

/-- A completion endpoint that always fails, used to witness the error path. -/
def apiFail : String → Except String ChatResponse :=
  fun _ => .error "boom"

/-- The substring whose absence claim C9 is about. -/
def needleCS : String := "Coding standards:"

/-- The fixed header of the user-code block of the prompt, up to (but not
including) its terminating newline. -/
def userCodeHeader : String :=
  "### User code in " ++ supported_languages.str ++ ":"

/-! ## Theorems -/

/-- If a needle avoids the separator `c`, a prefix of `a ++ c :: b` that avoids
`c` is already a prefix of `a`. -/
theorem dropAtSep {α : Type} (c : α) (n : List α) :
    ∀ (a b : List α), c ∉ n → n <+: a ++ c :: b → n <+: a := by
  induction n with
  | nil => intro a _ _ _; exact ⟨a, rfl⟩
  | cons x n' ih =>
    intro a b hc h
    cases a with
    | nil =>
      obtain ⟨t, ht⟩ := h
      rw [List.nil_append, List.cons_append] at ht
      injection ht with h1 _
      exact absurd (by rw [← h1]; exact List.mem_cons_self x n') hc
    | cons y a' =>
      obtain ⟨t, ht⟩ := h
      simp only [List.cons_append] at ht
      injection ht with h1 h2
      subst h1
      obtain ⟨t', ht'⟩ := ih a' b (fun hm => hc (List.mem_cons_of_mem _ hm)) ⟨t, h2⟩
      exact ⟨t', by rw [List.cons_append, ht']⟩

/-- A needle that avoids the separator `c` and sits inside `a ++ c :: b` sits
entirely inside `a` or entirely inside `b`. -/
theorem splitAtSep {α : Type} (c : α) (n : List α) :
    ∀ (a b : List α), c ∉ n → n <:+: a ++ c :: b → n <:+: a ∨ n <:+: b := by
  intro a b hc
  induction a with
  | nil =>
    intro h
    obtain ⟨s, t, hst⟩ := h
    rw [List.nil_append] at hst
    cases s with
    | nil =>
      rw [List.nil_append] at hst
      cases n with
      | nil => exact Or.inl ⟨[], [], rfl⟩
      | cons x n' =>
        rw [List.cons_append] at hst
        injection hst with h1 _
        exact absurd (by rw [← h1]; exact List.mem_cons_self x n') hc
    | cons d s' =>
      simp only [List.cons_append] at hst
      injection hst with _ h2
      exact Or.inr ⟨s', t, h2⟩
  | cons x a' ih =>
    intro h
    obtain ⟨s, t, hst⟩ := h
    cases s with
    | nil =>
      rw [List.nil_append] at hst
      obtain ⟨t', ht'⟩ := dropAtSep c n (x :: a') b hc ⟨t, hst⟩
      exact Or.inl ⟨[], t', by rw [List.nil_append]; exact ht'⟩
    | cons d s' =>
      simp only [List.cons_append] at hst
      injection hst with h1 h2
      rcases ih ⟨s', t, h2⟩ with h3 | h3
      · obtain ⟨s2, t2, h4⟩ := h3
        exact Or.inl ⟨x :: s2, t2, by simp only [List.cons_append]; rw [h4]⟩
      · exact Or.inr h3

/-- `clean_code_block` on text that does not begin with a fence is the identity. -/
theorem clean_code_block_of_unfenced (code : String)
    (h : pyStartswith code "```" = false) : clean_code_block code = .ok code := by
  unfold clean_code_block
  simp [h]

/-- `clean_code_block` on text that begins with a fence always raises: the
comparison on line 22 calls `.lower()` on the list `self.supported_languages`. -/
theorem clean_code_block_of_fenced (code : String)
    (h : pyStartswith code "```" = true) : ∃ e, clean_code_block code = .error e := by
  unfold clean_code_block
  rw [if_pos h]
  cases hl : (pySplitlines (pyStrip code)).head? with
  | none => exact ⟨.indexError "list index out of range", rfl⟩
  | some line0 => exact ⟨listLowerErr, rfl⟩

/-- C1: for the input `"```python\nprint(1)\n```"` the claim says
`clean_code_block` returns `"print(1)"`; instead the code raises
`AttributeError` because line 22 evaluates `self.supported_languages.lower()`
on a list.  This theorem evaluates the embedded code at the failing input. -/
theorem c1_clean_code_block_raises_on_fenced_python :
    clean_code_block "```python\nprint(1)\n```" = .error listLowerErr := rfl

/-- C2: the claim says every `.lower()` applied to `supported_languages`
returns normally; in fact both call sites (line 22 in `clean_code_block`,
line 67 in `run_tests`) raise `AttributeError`, evaluated here on concrete
inputs. -/
theorem c2_lower_on_list_raises :
    clean_code_block "```" = .error listLowerErr ∧
    (run_tests (fun _ => ⟨"", ""⟩) "/tmp/t" "c" "t").1 = .error listLowerErr :=
  ⟨rfl, rfl⟩

/-- C3: the claim says `run_tests` returns an unsupported-language message for
languages other than python/javascript; instead `run_tests` (which takes no
language argument at all) raises `AttributeError` at line 67 on every input,
before writing any file or spawning any process. -/
theorem c3_run_tests_raises_touches_nothing :
    ∀ (run : List String → ProcResult) (temp_dir code_str test_str : String),
      run_tests run temp_dir code_str test_str = (.error listLowerErr, ⟨[], []⟩) :=
  fun _ _ _ _ => rfl

/-- C4: the claim says the javascript branch always writes the fixed
`fibonacci` import line before the tests; that branch is unreachable — the
function raises `AttributeError` at line 67 first, so no test file (and hence
no import line) is ever written. -/
theorem c4_run_tests_writes_no_js_import :
    ∀ (run : List String → ProcResult) (temp_dir code_str test_str : String),
      (run_tests run temp_dir code_str test_str).2.files = [] ∧
      (run_tests run temp_dir code_str test_str).1 = .error listLowerErr :=
  fun _ _ _ _ => ⟨rfl, rfl⟩

/-- C5: the claim says `run_tests` returns the child's stdout ++ stderr (e.g.
exactly `"OK\n"` for stdout `"OK\n"`, stderr `""`); instead it raises
`AttributeError` at line 67 for every input and every child-process
behaviour, so no output is ever returned. -/
theorem c5_run_tests_never_returns_output :
    ∀ (run : List String → ProcResult) (temp_dir code_str test_str : String),
      (run_tests run temp_dir code_str test_str).1 = .error listLowerErr :=
  fun _ _ _ _ => rfl

/-- C6: input that does not begin with a code fence is returned unchanged. -/
theorem c6_clean_code_block_unfenced_id :
    ∀ code : String, pyStartswith code "```" = false → clean_code_block code = .ok code :=
  fun code h => clean_code_block_of_unfenced code h

/-- Witness for C6 at the concrete unfenced input `"print(1)"`. -/
theorem c6_clean_code_block_unfenced_id_witness :
    pyStartswith "print(1)" "```" = false ∧ clean_code_block "print(1)" = .ok "print(1)" :=
  ⟨by decide, c6_clean_code_block_unfenced_id "print(1)" (by decide)⟩

/-- C7: fence stripping is idempotent.  Sequencing two applications (the
second runs only if the first returned normally) equals a single application:
unfenced input is returned unchanged, and fenced input makes both sides the
same propagated exception. -/
theorem c7_clean_code_block_idempotent :
    ∀ code : String, (clean_code_block code).bind clean_code_block = clean_code_block code := by
  intro code
  cases hb : pyStartswith code "```" with
  | true =>
    obtain ⟨e, he⟩ := clean_code_block_of_fenced code hb
    rw [he]
    rfl
  | false =>
    rw [clean_code_block_of_unfenced code hb]
    show clean_code_block code = Except.ok code
    exact clean_code_block_of_unfenced code hb

/-- C8: the assembled prompt contains the user's code verbatim as a
contiguous substring, for every combination of optional inputs. -/
theorem c8_prompt_contains_user_code :
    ∀ (coding_doc user_prompt : Option String) (user_code : String),
      user_code.data <:+: (full_user_prompt coding_doc user_prompt user_code).data := by
  intro cd up uc
  refine ⟨(optPart cd (fun d => "### Coding standards:\n" ++ d ++ "\n\n")
      ++ optPart up (fun p => p ++ "\n\n")
      ++ ("### User code in " ++ supported_languages.str ++ ":\n")).data,
    ("\n\n" ++ promptTemplate).data, ?_⟩
  simp only [full_user_prompt, String.data_append, List.append_assoc]

/-- Shape of the prompt with no coding doc and no user prompt: header, newline,
user code, blank line, template. -/
theorem full_user_prompt_none_none_data (uc : String) :
    (full_user_prompt none none uc).data =
      userCodeHeader.data ++ '\n' :: (uc.data ++ '\n' :: '\n' :: promptTemplate.data) := by
  have h1 : ((":\n") : String).data = [':', '\n'] := rfl
  have h2 : ((":") : String).data = [':'] := rfl
  have h3 : (("\n\n") : String).data = ['\n', '\n'] := rfl
  have h4 : (("") : String).data = ([] : List Char) := rfl
  simp only [full_user_prompt, userCodeHeader, optPart, String.data_append, h1, h2, h3, h4,
    List.append_assoc, List.cons_append, List.nil_append]

/-- Shape of the prompt with no coding doc and an empty (hence falsy) user
prompt: identical to the no-user-prompt case. -/
theorem full_user_prompt_empty_up_data (uc : String) :
    (full_user_prompt none (some "") uc).data =
      userCodeHeader.data ++ '\n' :: (uc.data ++ '\n' :: '\n' :: promptTemplate.data) := by
  have h1 : ((":\n") : String).data = [':', '\n'] := rfl
  have h2 : ((":") : String).data = [':'] := rfl
  have h3 : (("\n\n") : String).data = ['\n', '\n'] := rfl
  have h4 : (("") : String).data = ([] : List Char) := rfl
  simp only [full_user_prompt, userCodeHeader, optPart, String.data_append, h1, h2, h3, h4,
    List.append_assoc, List.cons_append, List.nil_append]
  simp [h4]

/-- Shape of the prompt with no coding doc and a non-empty user prompt: the
user prompt, a blank line, then the user-code block and template. -/
theorem full_user_prompt_some_up_data (p : String) (hp : ¬ p = "") (uc : String) :
    (full_user_prompt none (some p) uc).data =
      p.data ++ '\n' :: '\n' ::
        (userCodeHeader.data ++ '\n' :: (uc.data ++ '\n' :: '\n' :: promptTemplate.data)) := by
  have h1 : ((":\n") : String).data = [':', '\n'] := rfl
  have h2 : ((":") : String).data = [':'] := rfl
  have h3 : (("\n\n") : String).data = ['\n', '\n'] := rfl
  have h4 : (("") : String).data = ([] : List Char) := rfl
  simp only [full_user_prompt, userCodeHeader, optPart, String.data_append, h1, h2, h3, h4,
    List.append_assoc, List.cons_append, List.nil_append, if_neg hp]

/-- The user-code block of the prompt is free of `"Coding standards:"` as long
as the user code itself is: the fixed header, the fixed template, and the
newline-free needle cannot produce an occurrence across line boundaries. -/
theorem needle_not_in_code_block (uc : String)
    (h1 : ¬ needleCS.data <:+: uc.data) :
    ¬ needleCS.data <:+:
      (userCodeHeader.data ++ '\n' :: (uc.data ++ '\n' :: '\n' :: promptTemplate.data)) := by
  intro hinf
  have hnl : '\n' ∉ needleCS.data := by decide
  rcases splitAtSep '\n' needleCS.data _ _ hnl hinf with h3 | h3
  · exact absurd h3 (by decide)
  · rcases splitAtSep '\n' needleCS.data _ _ hnl h3 with h4 | h4
    · exact h1 h4
    · have h4' : needleCS.data <:+: ([] ++ '\n' :: promptTemplate.data) := by
        simpa using h4
      rcases splitAtSep '\n' needleCS.data _ _ hnl h4' with h5 | h5
      · exact absurd h5 (by decide)
      · exact absurd h5 (by decide)

/-- C9 counterexample: with no coding doc and no user prompt, the user code
`"Coding standards:"` alone already puts the literal `"Coding standards:"`
into the assembled prompt, so the claim as stated is false. -/
theorem c9_cex_prompt_contains_needle :
    needleCS.data <:+: (full_user_prompt none none needleCS).data := by
  rw [full_user_prompt_none_none_data]
  exact ⟨userCodeHeader.data ++ ['\n'], '\n' :: '\n' :: promptTemplate.data, by
    simp only [List.append_assoc, List.cons_append, List.nil_append]⟩

/-- C9 amended: when the coding doc is absent and neither the user code nor
the optional user prompt contains `"Coding standards:"`, the assembled prompt
does not contain `"Coding standards:"`. -/
theorem c9_amended_prompt_no_coding_standards :
    ∀ (user_prompt : Option String) (user_code : String),
      ¬ needleCS.data <:+: user_code.data →
      (∀ p, user_prompt = some p → ¬ needleCS.data <:+: p.data) →
      ¬ needleCS.data <:+: (full_user_prompt none user_prompt user_code).data := by
  intro up uc h1 h2 hinf
  cases up with
  | none =>
    rw [full_user_prompt_none_none_data] at hinf
    exact needle_not_in_code_block uc h1 hinf
  | some p =>
    by_cases hpe : p = ""
    · subst hpe
      rw [full_user_prompt_empty_up_data] at hinf
      exact needle_not_in_code_block uc h1 hinf
    · rw [full_user_prompt_some_up_data p hpe uc] at hinf
      have hnl : '\n' ∉ needleCS.data := by decide
      rcases splitAtSep '\n' needleCS.data _ _ hnl hinf with h3 | h3
      · exact h2 p rfl h3
      · have h3' : needleCS.data <:+:
            ([] ++ '\n' :: (userCodeHeader.data ++ '\n' ::
              (uc.data ++ '\n' :: '\n' :: promptTemplate.data))) := by
          simpa using h3
        rcases splitAtSep '\n' needleCS.data _ _ hnl h3' with h4 | h4
        · exact absurd h4 (by decide)
        · exact needle_not_in_code_block uc h1 h4

/-- Witness for C9's amended theorem at the concrete inputs
`user_prompt = none`, `user_code = "print(1)"`. -/
theorem c9_amended_witness :
    (¬ needleCS.data <:+: ("print(1)" : String).data) ∧
    ¬ needleCS.data <:+: (full_user_prompt none none "print(1)").data :=
  ⟨by decide,
   c9_amended_prompt_no_coding_standards none "print(1)" (by decide) (fun _ h => nomatch h)⟩

/-- C10: `call_llm` issues exactly one completion request; if that request
raises, it reports the exception via `st.error` and returns `""`; if it
succeeds with a non-empty `choices`, it returns the first choice's message
content with no error reported. -/
theorem c10_call_llm_single_attempt :
    ∀ (api : String → Except String ChatResponse) (system_prompt user_code : String)
      (coding_doc user_prompt : Option String),
      (call_llm api system_prompt user_code coding_doc user_prompt).attempts = 1 ∧
      (∀ e, api (full_user_prompt coding_doc user_prompt user_code) = .error e →
        call_llm api system_prompt user_code coding_doc user_prompt =
          ⟨"", ["❌ LLM API Error: " ++ e], 1⟩) ∧
      (∀ resp c rest, api (full_user_prompt coding_doc user_prompt user_code) = .ok resp →
        resp.choices = c :: rest →
        call_llm api system_prompt user_code coding_doc user_prompt =
          ⟨c.message_content, [], 1⟩) := by
  intro api sp uc cd up
  refine ⟨?_, ?_, ?_⟩
  · cases h : api (full_user_prompt cd up uc) with
    | ok resp =>
      simp only [call_llm, h]
      cases hr : resp.choices.head? <;> simp [hr]
    | error e => simp [call_llm, h]
  · intro e he
    simp only [call_llm, he]
  · intro resp c rest hr hc
    simp only [call_llm, hr, hc, List.head?]

/-- Witness for C10 with an endpoint that always raises `"boom"`. -/
theorem c10_witness :
    (call_llm apiFail "" "" none none).attempts = 1 ∧
    call_llm apiFail "" "" none none = ⟨"", ["❌ LLM API Error: boom"], 1⟩ :=
  ⟨(c10_call_llm_single_attempt apiFail "" "" none none).1,
   (c10_call_llm_single_attempt apiFail "" "" none none).2.1 "boom" rfl⟩
